import Mathlib

/-!
Verification development for the pyntc vendor-abstraction layer
(`pyntc/devices/netmiko_device.py`, `asa_device.py`, `jnpr_device.py`,
`f5_device.py`).  Python strings are embedded as `List Char`; the opaque
transport primitives (netmiko `send_command`/`send_config_set`, the Junos
NETCONF RPC client, the F5 SOAP/REST handlers) are embedded as function
parameters supplying the device-side responses; stateful drivers are embedded
as explicit state passing.  All definitions are translated from the source;
doc comments name the Python symbol each one embeds.
-/

namespace Pyntc

/-- Python strings are modelled as lists of characters. -/
abbrev Str := List Char

/-- CLI session modes relevant to the drivers' mode-transition logic
(`enable` / `config_mode` / `exit_config_mode` on the netmiko handle). -/
inductive Mode
  | privileged
  | config
deriving DecidableEq, Repr

/-- The mode-relevant part of a live CLI session (the netmiko handle state). -/
structure Session where
  mode : Mode
deriving DecidableEq, Repr

/-!
## Uptime-string parsing (`ASADevice._uptime_components`,
`JunosDevice._uptime_components`)

Both drivers extract components from the raw uptime string with
`re.search(r'(\d+) days?', s)` (and the analogous patterns for hours, minutes
and — on Junos — seconds), taking `int(match.group(1))` when a match exists
and `0` otherwise.  `searchNumUnit unit s` embeds `re.search` for the pattern
`(\d+) <unit>s?`: the leftmost maximal digit run immediately followed by the
unit text (the optional trailing `s` cannot affect whether a match exists nor
the captured group).
-/

/-- Embeds Python `int()` on a nonempty string of decimal digits. -/
def digitsToNat (ds : Str) : Nat :=
  ds.foldl (fun acc c => 10 * acc + (c.toNat - '0'.toNat)) 0

/-- True when the string is empty or does not start with a digit; the shape of
the remainder that makes a digit run maximal. -/
def headNotDigit : Str → Bool
  | [] => true
  | c :: _ => !c.isDigit

/-- Embeds `re.search(r'(\d+) <unit>s?', s)` followed by `int(match.group(1))`:
scan left to right; at a digit, the candidate group is the maximal digit run
from here and the match succeeds when `unit` follows the run (Python's regex
scan tries every start position, greedy `\d+` cannot backtrack into a
successful match because `unit` starts with a space, and positions inside a
digit run see the same remainder, so this scan is the leftmost-match
semantics). -/
def searchNumUnit (unit : Str) : Str → Option Nat
  | [] => none
  | c :: cs =>
    if c.isDigit then
      if unit.isPrefixOf (List.dropWhile Char.isDigit cs) then
        some (digitsToNat (c :: List.takeWhile Char.isDigit cs))
      else searchNumUnit unit cs
    else searchNumUnit unit cs

/-- The family of raw uptime strings claim C5 quantifies over: a string of the
form `"D days, H hours, M minutes"` with any component optionally absent, the
numerals given as digit strings. -/
def mkUptime : Option Str → Option Str → Option Str → Str
  | some d, some h, some m =>
      d ++ (" days, ".data ++ (h ++ (" hours, ".data ++ (m ++ " minutes".data))))
  | some d, some h, none => d ++ (" days, ".data ++ (h ++ " hours".data))
  | some d, none, some m => d ++ (" days, ".data ++ (m ++ " minutes".data))
  | some d, none, none => d ++ " days".data
  | none, some h, some m => h ++ (" hours, ".data ++ (m ++ " minutes".data))
  | none, some h, none => h ++ " hours".data
  | none, none, some m => m ++ " minutes".data
  | none, none, none => []

/-- Well-formedness of an optional numeral: when present it is a nonempty
string of decimal digits. -/
def goodDigits (o : Option Str) : Prop :=
  ∀ x ∈ o, x ≠ [] ∧ ∀ c ∈ x, c.isDigit = true

/-- Embeds Python `'%02d' % n`: decimal representation left-padded with `0` to
width two. -/
def pad2 (n : Nat) : Str :=
  if n < 10 then '0' :: (Nat.repr n).data else (Nat.repr n).data

/-! ## Netmiko base driver (`pyntc/devices/netmiko_device.py`) -/

namespace Netmiko

/-- Embeds `NetmikoBaseDevice.error_keywords = ["Error:", "% ", "Incorrect usage"]`. -/
def error_keywords : List Str := ["Error:".data, "% ".data, "Incorrect usage".data]

/-- Embeds `NetmikoBaseDevice._command_output_has_error`: the response reports an
error when any keyword of `error_keywords` occurs in it (Python `in` on strings,
i.e. substring containment). -/
def command_output_has_error (command_response : Str) : Bool :=
  error_keywords.any fun error_keyword => decide (error_keyword <:+: command_response)

/-- Embeds `pyntc.errors.CommandError` as raised by
`NetmikoBaseDevice._send_commands` (`CommandError(command, command_response,
entered_commands)`): the failing command, the raw response (`cli_error_msg`),
and the ordered list of commands already attempted. -/
structure CommandErrorData where
  command : Str
  cli_error_msg : Str
  commands : List Str
deriving DecidableEq, Repr

/-- Embeds `pyntc.errors.CommandListError` as raised by the drivers
(`CommandListError(entered_commands, command, message)`). -/
structure CommandListErrorData where
  commands : List Str
  command : Str
  message : Str
deriving DecidableEq, Repr

/-- Loop body of `NetmikoBaseDevice._send_commands` with the `entered_commands`
and `command_responses` accumulators made explicit.  `netmiko_method` is the
opaque transport primitive; the second component of the result is the ordered
list of commands actually handed to `netmiko_method` (the mock-transport send
log, which the loop grows by exactly one entry right before each send). -/
def send_commands_go (has_error : Str → Bool) (netmiko_method : Str → Str)
    (entered_commands command_responses : List Str) :
    List Str → Except CommandErrorData (List Str) × List Str
  | [] => (.ok command_responses, entered_commands)
  | command :: rest =>
    let entered' := entered_commands ++ [command]
    let command_response := netmiko_method command
    if has_error command_response then
      (.error ⟨command, command_response, entered'⟩, entered')
    else
      send_commands_go has_error netmiko_method entered'
        (command_responses ++ [command_response]) rest

/-- Embeds `NetmikoBaseDevice._send_commands`: send each command in order,
stopping at the first response that `has_error` flags and raising
`CommandError` with the attempted prefix.  Returns the result together with
the transport send log. -/
def send_commands (has_error : Str → Bool) (netmiko_method : Str → Str)
    (commands : List Str) : Except CommandErrorData (List Str) × List Str :=
  send_commands_go has_error netmiko_method [] [] commands

/-- Embeds `NetmikoBaseDevice.config` on the command-list path.
`enter_config_mode` / `exit_config_mode` are the values found in
`netmiko_args` (`none` when absent).  Following the source: config mode is
entered unless `enter_config_mode is False`; the body runs
`_send_commands(send_config_set, ...)`, re-raising `CommandError` as
`CommandListError(err.commands, err.command, err.cli_error_msg)`; and in a
`finally` block config mode is exited unless the caller's original
`exit_config_mode` was `False` — also on the exception path.  Result:
(command responses or error, session after, transport send log). -/
def config (enter_config_mode exit_config_mode : Option Bool)
    (has_error : Str → Bool) (send_config_set : Str → Str)
    (commands : List Str) (s : Session) :
    Except CommandListErrorData (List Str) × Session × List Str :=
  let s1 := if enter_config_mode ≠ some false then { s with mode := Mode.config } else s
  let r := send_commands has_error send_config_set commands
  let result : Except CommandListErrorData (List Str) :=
    match r.1 with
    | .ok responses => .ok responses
    | .error err => .error ⟨err.commands, err.command, err.cli_error_msg⟩
  let s2 := if exit_config_mode ≠ some false then { s1 with mode := Mode.privileged } else s1
  (result, s2, r.2)

end Netmiko

/-! ## ASA driver (`pyntc/devices/asa_device.py`) -/

namespace ASA

/-- Embeds `pyntc.errors.CommandError` as raised by `ASADevice._send_command`
(`CommandError(command, response)`). -/
structure CommandErrorData where
  command : Str
  cli_error_msg : Str
deriving DecidableEq, Repr

/-- Error detection inside `ASADevice._send_command`:
`'% ' in response or 'Error:' in response`. -/
def response_has_error (response : Str) : Bool :=
  decide ("% ".data <:+: response) || decide ("Error:".data <:+: response)

/-- Embeds `ASADevice._send_command` (timing path): send the command through the
transport `respond`, raising `CommandError(command, response)` when the response
contains a vendor error marker. -/
def send_command (respond : Str → Str) (command : Str) :
    Except CommandErrorData Str :=
  let response := respond command
  if response_has_error response then .error ⟨command, response⟩ else .ok response

/-- Loop of `ASADevice.show_list` with the `responses` and `entered_commands`
accumulators explicit.  The second component of the result is the ordered list
of commands actually handed to the transport. -/
def show_list_go (respond : Str → Str) (responses entered_commands : List Str) :
    List Str → Except Netmiko.CommandListErrorData (List Str) × List Str
  | [] => (.ok responses, entered_commands)
  | command :: rest =>
    let entered' := entered_commands ++ [command]
    match send_command respond command with
    | .ok response => show_list_go respond (responses ++ [response]) entered' rest
    | .error e => (.error ⟨entered', command, e.cli_error_msg⟩, entered')

/-- Embeds `ASADevice.show_list` (after the `_enable()` mode transition, which
sends no batch command): send each command in order, raising
`CommandListError(entered_commands, command, e.cli_error_msg)` at the first
command whose response carries an error marker. -/
def show_list (respond : Str → Str) (commands : List Str) :
    Except Netmiko.CommandListErrorData (List Str) × List Str :=
  show_list_go respond [] [] commands

/-- Embeds `ASADevice.config`: `_enter_config()` puts the session in config
mode, the single command is sent, and `exit_config_mode()` runs only after a
successful send — an exception from `_send_command` propagates before the exit
line is reached, leaving the session in config mode. -/
def config (respond : Str → Str) (command : Str) (s : Session) :
    Except CommandErrorData Unit × Session :=
  let s1 := { s with mode := Mode.config }
  match send_command respond command with
  | .ok _ => (.ok (), { s1 with mode := Mode.privileged })
  | .error e => (.error e, s1)

/-- Loop of `ASADevice.config_list` with the `entered_commands` accumulator
explicit; the session stays as given while the loop runs. -/
def config_list_go (respond : Str → Str) (entered_commands : List Str)
    (s : Session) : List Str → Except Netmiko.CommandListErrorData Unit × Session
  | [] => (.ok (), { s with mode := Mode.privileged })
  | command :: rest =>
    let entered' := entered_commands ++ [command]
    match send_command respond command with
    | .ok _ => config_list_go respond entered' s rest
    | .error e => (.error ⟨entered', command, e.cli_error_msg⟩, s)

/-- Embeds `ASADevice.config_list`: `_enter_config()` puts the session in
config mode, each command is sent in order, and `exit_config_mode()` runs only
after the whole loop succeeds; a `CommandError` is re-raised as
`CommandListError(entered_commands, command, e.cli_error_msg)` with no config
mode cleanup. -/
def config_list (respond : Str → Str) (commands : List Str) (s : Session) :
    Except Netmiko.CommandListErrorData Unit × Session :=
  config_list_go respond [] { s with mode := Mode.config } commands

/-- Embeds `ASADevice._uptime_components`: regex-extract the days, hours and
minutes numerals from the raw uptime string, each defaulting to 0 when its
pattern does not match. -/
def uptime_components (uptime_full_string : Str) : Nat × Nat × Nat :=
  ((searchNumUnit " day".data uptime_full_string).getD 0,
   (searchNumUnit " hour".data uptime_full_string).getD 0,
   (searchNumUnit " minute".data uptime_full_string).getD 0)

/-- Embeds `ASADevice._uptime_to_seconds`:
`days * 24 * 60 * 60 + hours * 60 * 60 + minutes * 60`. -/
def uptime_to_seconds (uptime_full_string : Str) : Nat :=
  (uptime_components uptime_full_string).1 * 24 * 60 * 60
    + (uptime_components uptime_full_string).2.1 * 60 * 60
    + (uptime_components uptime_full_string).2.2 * 60

/-- Embeds `ASADevice._uptime_to_string`:
`'%02d:%02d:%02d:00' % (days, hours, minutes)`. -/
def uptime_to_string (uptime_full_string : Str) : Str :=
  pad2 (uptime_components uptime_full_string).1
    ++ ':' :: pad2 (uptime_components uptime_full_string).2.1
    ++ ':' :: pad2 (uptime_components uptime_full_string).2.2
    ++ ":00".data

end ASA

/-! ## Junos driver (`pyntc/devices/jnpr_device.py`) -/

namespace Junos

/-- Embeds `JunosDevice._uptime_components`: like the ASA version plus a
seconds component from `re.search(r'(\d+) seconds?', s)`. -/
def uptime_components (uptime_full_string : Str) : Nat × Nat × Nat × Nat :=
  ((searchNumUnit " day".data uptime_full_string).getD 0,
   (searchNumUnit " hour".data uptime_full_string).getD 0,
   (searchNumUnit " minute".data uptime_full_string).getD 0,
   (searchNumUnit " second".data uptime_full_string).getD 0)

/-- Embeds `JunosDevice._uptime_to_seconds`:
`seconds + days * 24 * 60 * 60 + hours * 60 * 60 + minutes * 60`. -/
def uptime_to_seconds (uptime_full_string : Str) : Nat :=
  (uptime_components uptime_full_string).2.2.2
    + (uptime_components uptime_full_string).1 * 24 * 60 * 60
    + (uptime_components uptime_full_string).2.1 * 60 * 60
    + (uptime_components uptime_full_string).2.2.1 * 60

/-- Embeds `JunosDevice._uptime_to_string`:
`'%02d:%02d:%02d:%02d' % (days, hours, minutes, seconds)`. -/
def uptime_to_string (uptime_full_string : Str) : Str :=
  pad2 (uptime_components uptime_full_string).1
    ++ ':' :: pad2 (uptime_components uptime_full_string).2.1
    ++ ':' :: pad2 (uptime_components uptime_full_string).2.2.1
    ++ ':' :: pad2 (uptime_components uptime_full_string).2.2.2

end Junos

/-!
## Shared value and file-system modelling
-/

/-- File contents are byte lists. -/
abbrev Bytes := List Nat

/-- Embeds `os.path.basename`: the part of the path after the last slash. -/
def basename (path : Str) : Str :=
  (path.reverse.takeWhile (fun c => c != '/')).reverse

/-- Values stored in a facts mapping: strings, integers (uptime seconds), or
lists of names (interfaces, vlans). -/
inductive FVal
  | s (v : Str)
  | n (v : Nat)
  | l (v : List Str)
deriving DecidableEq, Repr

/-- Embeds Python dict indexing `d[k]` on an association list: the value at the
first matching key, `none` where Python would raise `KeyError`. -/
def lookupKey (k : Str) (l : List (Str × FVal)) : Option FVal :=
  (l.find? (fun p => p.1 == k)).map (fun p => p.2)

namespace ASA

/-- Embeds `ASADevice.facts`: an explicitly unimplemented stub — the docstring
reads "Implement this once facts' re-factor is done" — that returns the empty
mapping on every access. -/
def facts : List (Str × FVal) := []

/-- Embeds `ASADevice.get_boot_options`: a one-key mapping
`{'sys': boot_image}` where `boot_image` is `group(2)` of
`re.search(r'Current BOOT variable = (\S+):\/(\S+)', show_boot_out)` — or
`None` when the regex does not match.  The regex extraction itself is
abstracted as the `boot_image` parameter; claim C8 concerns only the shape of
the returned mapping. -/
def get_boot_options (boot_image : Option Str) : List (Str × Option Str) :=
  [("sys".data, boot_image)]

/-- The exceptions that can escape `ASADevice.reboot`: the `CommandError`
from an error marker in the reload response, or the `TypeError` Python raises
when the alarm fires (see `reboot`). -/
inductive RebootError
  | commandError (e : CommandErrorData)
  | typeError (message : Str)
deriving DecidableEq, Repr

/-- Message of the `TypeError` raised when the SIGALRM handler fires. -/
def alarm_typeerror_message : Str :=
  "handler() takes 0 positional arguments but 2 were given".data

/-- Embeds `ASADevice.reboot`.  The source sends `'reload in %d' % timer` when
`timer > 0` and plain `'reload'` otherwise through `show`/`_send_command`,
answers an eventual `'System configuration'` confirmation prompt with `'no'`,
sends a final newline, and bounds the whole block with a 10-second
`signal.alarm` registered to `def handler():` — a ZERO-argument function.
Python invokes signal handlers with `(signum, frame)`, so a firing alarm
raises `TypeError`, not `RebootSignal`; the `except RebootSignal:` clause
never matches it and the `TypeError` escapes `reboot`.  `alarm_interrupts`
selects that interrupted path; on the uninterrupted path the only exception is
the `CommandError` from an error marker in the reload response, and otherwise
the function returns `None`.  In no path is a `RebootTimeout` or
`OperationTimeout` raised. -/
def reboot (timer : Nat) (respond : Str → Str) (alarm_interrupts : Bool) :
    Except RebootError Unit :=
  if alarm_interrupts then .error (.typeError alarm_typeerror_message)
  else
    let command :=
      if timer > 0 then "reload in ".data ++ (Nat.repr timer).data else "reload".data
    match send_command respond command with
    | .error e => .error (.commandError e)
    | .ok _first_response => .ok ()

end ASA

namespace Junos

/-- The fields of the PyEZ `native.facts` mapping that `JunosDevice.facts`
reads directly, plus the full key/value iteration order (`entries`) that the
`for fact_key in native_facts` version scan walks. -/
structure NativeFacts where
  hostname : Str
  model : Str
  serialnumber : Str
  fqdn : Str
  re0_up_time : Str
  entries : List (Str × Str)
deriving DecidableEq, Repr

/-- Embeds the version scan in `JunosDevice.facts`: the value of the first key
that starts with `'version'` and is not `'version_info'`, if any. -/
def find_version_value : List (Str × Str) → Option Str
  | [] => none
  | (k, v) :: rest =>
    if "version".data.isPrefixOf k && !(k == "version_info".data) then some v
    else find_version_value rest

/-- The device-side data the Junos driver reads over NETCONF: the native facts
and the interface tables (`EthPortTable` + `LoopbackTable` keys). -/
structure Env where
  native_facts : NativeFacts
  interfaces : List Str
deriving DecidableEq, Repr

/-- The driver-side mutable state: the `self._facts` cache (initialized to
`None` by the base class) and a count of NETCONF round trips issued. -/
structure State where
  facts : Option (List (Str × FVal))
  calls : Nat
deriving DecidableEq, Repr

/-- The state of a freshly constructed `JunosDevice`. -/
def init : State := ⟨none, 0⟩

/-- The facts mapping `JunosDevice.facts` builds, in insertion order:
hostname, model, serial_number, interfaces, fqdn, uptime, uptime_string, then
os_version when the version scan finds a key, then vendor (`'juniper'`). -/
def facts_value (nf : NativeFacts) (interfaces : List Str) : List (Str × FVal) :=
  [("hostname".data, FVal.s nf.hostname),
   ("model".data, FVal.s nf.model),
   ("serial_number".data, FVal.s nf.serialnumber),
   ("interfaces".data, FVal.l interfaces),
   ("fqdn".data, FVal.s nf.fqdn),
   ("uptime".data, FVal.n (uptime_to_seconds nf.re0_up_time)),
   ("uptime_string".data, FVal.s (uptime_to_string nf.re0_up_time))]
  ++ (match find_version_value nf.entries with
      | some v => [("os_version".data, FVal.s v)]
      | none => [])
  ++ [("vendor".data, FVal.s "juniper".data)]

/-- Embeds the `JunosDevice.facts` property: when `self._facts` is `None`,
read the native facts (one RPC) and the two interface tables (two RPCs), build
the mapping and cache it; otherwise return the cached mapping with no device
round trip. -/
def facts (env : Env) (st : State) : List (Str × FVal) × State :=
  match st.facts with
  | some f => (f, st)
  | none =>
    let f := facts_value env.native_facts env.interfaces
    (f, { facts := some f, calls := st.calls + 3 })

/-- Embeds `JunosDevice.config`: `cu.load(command)` then `cu.commit()`;
`load_error = some message` plays the `ConfigLoadError` raised by the NETCONF
library, which the driver re-raises as `CommandError(command, e.message)`.
The facts cache is never touched. -/
def config (command : Str) (load_error : Option Str) (st : State) :
    Except ASA.CommandErrorData Unit × State :=
  match load_error with
  | some msg => (.error ⟨command, msg⟩, { st with calls := st.calls + 1 })
  | none => (.ok (), { st with calls := st.calls + 2 })

/-- Embeds `JunosDevice.get_boot_options`: `return self.facts['os_version']` —
a bare value (`KeyError`, i.e. `none`, when the version scan found no key),
not a mapping with a `sys` key. -/
def get_boot_options (env : Env) (st : State) : Option FVal × State :=
  let r := facts env st
  (lookupKey "os_version".data r.1, r.2)

/-- Errors raised by `JunosDevice.show` before any device I/O. -/
inductive ShowError
  | valueError (message : Str)
  | commandError (command : Str) (message : Str)
deriving DecidableEq, Repr

/-- Message of the `ValueError` in `JunosDevice.show` (the source string's
line-continuation whitespace is collapsed). -/
def raw_text_message : Str :=
  "Juniper only supports raw text output. Append \" | display xml\" to your commands for a structured string.".data

/-- Message of the `CommandError` in `JunosDevice.show`. -/
def show_command_message : Str :=
  "Juniper \"show\" commands must begin with \"show\".".data

/-- Embeds `JunosDevice.show`: raise `ValueError` when `raw_text` is false,
then raise `CommandError` when the command does not start with `'show'`, and
only otherwise call `self.native.cli(command)`.  The second component counts
the calls made to the transport (`native.cli`). -/
def show_op (cli : Str → Str) (command : Str) (raw_text : Bool) :
    Except ShowError Str × Nat :=
  if raw_text = false then
    (.error (.valueError raw_text_message), 0)
  else if ("show".data.isPrefixOf command) = false then
    (.error (.commandError command show_command_message), 0)
  else
    (.ok (cli command), 1)

/-- Embeds `JunosDevice._file_copy_local_md5`: the checksum of the local file
contents when the file exists, else `None`.  `md5` is the hash function
provided by the external checksumming collaborator. -/
def file_copy_local_md5 (local_files : Str → Option Bytes) (md5 : Bytes → Str)
    (filepath : Str) : Option Str :=
  match local_files filepath with
  | some content => some (md5 content)
  | none => none

/-- Embeds `JunosDevice.file_copy_remote_exists`: default `dest` to
`basename src`, compare the local MD5 (`None` when the local file is absent)
against the remote checksum (`fs.checksum(dest)`, `None` when the remote file
is absent), and return `True` exactly when the local hash exists and equals
the remote hash. -/
def file_copy_remote_exists (local_files : Str → Option Bytes)
    (md5 : Bytes → Str) (remote_checksum : Str → Option Str)
    (src : Str) (dest : Option Str) : Bool :=
  let dest' := dest.getD (basename src)
  let local_hash := file_copy_local_md5 local_files md5 src
  let remote_hash := remote_checksum dest'
  match local_hash with
  | some lh => if remote_hash = some lh then true else false
  | none => false

end Junos

namespace F5

/-- One entry of the F5 software-volume collection, with the attributes the
driver reads (`name`, `active`, `version`, `basebuild`, `status`). -/
structure Volume where
  name : Str
  active : Bool
  version : Str
  basebuild : Str
  status : Str
deriving DecidableEq, Repr

/-- The device-side data the F5 driver reads over SOAP/REST.  `images` holds
the image names of the software-image collection; `free_space` abstracts the
gigabyte value parsed out of `vgdisplay`. -/
structure Env where
  hostname : Str
  marketing_name : Str
  chassis_serial : Str
  uptime : Nat
  version : Str
  interfaces : List Str
  vlans : List Str
  images : List Str
  volumes : List Volume
  free_space : Nat
deriving DecidableEq, Repr

/-- The driver-side mutable state: one `Option` cache per lazily-initialized
attribute of `F5Device.__init__` (each starts as `None`), plus a count of
transport round trips issued. -/
structure State where
  active_volume : Option Str
  facts : Option (List (Str × FVal))
  free_space : Option Nat
  hostname : Option Str
  images : Option (List Str)
  interfaces : Option (List Str)
  model : Option Str
  serial_number : Option Str
  uptime : Option Nat
  version : Option Str
  vlans : Option (List Str)
  volumes : Option (List Volume)
  calls : Nat
deriving DecidableEq, Repr

/-- The state of a freshly constructed `F5Device`: every cache `None`. -/
def init : State :=
  ⟨none, none, none, none, none, none, none, none, none, none, none, none, 0⟩

/-- Embeds the `F5Device.hostname` property: compute and cache on first
access (one SOAP call), return the cache afterwards. -/
def hostname (env : Env) (st : State) : Str × State :=
  match st.hostname with
  | some v => (v, st)
  | none => (env.hostname, { st with hostname := some env.hostname, calls := st.calls + 1 })

/-- Embeds the `F5Device.model` property (marketing name, one SOAP call). -/
def model (env : Env) (st : State) : Str × State :=
  match st.model with
  | some v => (v, st)
  | none =>
    (env.marketing_name, { st with model := some env.marketing_name, calls := st.calls + 1 })

/-- Embeds the `F5Device.serial_number` property (chassis serial, one SOAP
call). -/
def serial_number (env : Env) (st : State) : Str × State :=
  match st.serial_number with
  | some v => (v, st)
  | none =>
    (env.chassis_serial, { st with serial_number := some env.chassis_serial, calls := st.calls + 1 })

/-- Embeds the `F5Device.version` property (one SOAP call). -/
def version (env : Env) (st : State) : Str × State :=
  match st.version with
  | some v => (v, st)
  | none => (env.version, { st with version := some env.version, calls := st.calls + 1 })

/-- Embeds the `F5Device.interfaces` property (one SOAP call). -/
def interfaces (env : Env) (st : State) : List Str × State :=
  match st.interfaces with
  | some v => (v, st)
  | none =>
    (env.interfaces, { st with interfaces := some env.interfaces, calls := st.calls + 1 })

/-- Embeds the `F5Device.vlans` property: two SOAP calls (route-domain list,
then the vlans of those route domains). -/
def vlans (env : Env) (st : State) : List Str × State :=
  match st.vlans with
  | some v => (v, st)
  | none => (env.vlans, { st with vlans := some env.vlans, calls := st.calls + 2 })

/-- Embeds the `F5Device.images` property (one REST call). -/
def images (env : Env) (st : State) : List Str × State :=
  match st.images with
  | some v => (v, st)
  | none => (env.images, { st with images := some env.images, calls := st.calls + 1 })

/-- Embeds the `F5Device.volumes` property (one REST call). -/
def volumes (env : Env) (st : State) : List Volume × State :=
  match st.volumes with
  | some v => (v, st)
  | none => (env.volumes, { st with volumes := some env.volumes, calls := st.calls + 1 })

/-- Embeds the `F5Device.free_space` property (one REST call running
`vgdisplay`). -/
def free_space (env : Env) (st : State) : Nat × State :=
  match st.free_space with
  | some v => (v, st)
  | none =>
    (env.free_space, { st with free_space := some env.free_space, calls := st.calls + 1 })

/-- Embeds the `F5Device.uptime` property, whose docstring says "The uptime is
refreshed each time this property is accessed": every access makes a SOAP
call and overwrites `self._uptime`. -/
def uptime (env : Env) (st : State) : Nat × State :=
  (env.uptime, { st with uptime := some env.uptime, calls := st.calls + 1 })

/-- Embeds the `F5Device.active_volume` property: when `self._active_volume`
is `None`, scan `self.volumes` for the first volume with `active` true and
cache its name (an absent active volume leaves the cache `None`). -/
def active_volume (env : Env) (st : State) : Option Str × State :=
  match st.active_volume with
  | some v => (some v, st)
  | none =>
    let r := volumes env st
    let av := (r.1.find? (fun v => v.active)).map (fun v => v.name)
    (av, { r.2 with active_volume := av })

/-- Embeds `F5Device._uptime_to_string`: successive divmod of the uptime in
seconds into days, hours, minutes and seconds, formatted
`'%02d:%02d:%02d:%02d'` (the source's Python-2 `/` on ints is floor
division). -/
def uptime_to_string (uptime : Nat) : Str :=
  let days := uptime / (24 * 60 * 60)
  let uptime1 := uptime % (24 * 60 * 60)
  let hours := uptime1 / (60 * 60)
  let uptime2 := uptime1 % (60 * 60)
  let mins := uptime2 / 60
  let uptime3 := uptime2 % 60
  let seconds := uptime3
  pad2 days ++ ':' :: pad2 hours ++ ':' :: pad2 mins ++ ':' :: pad2 seconds

/-- Embeds the `F5Device.facts` property: when `self._facts` is `None`, build
the mapping — in the dict literal's evaluation order: uptime (a fresh SOAP
call), vendor (`'F5 Networks'`, set in `__init__`), model, hostname, fqdn
(`self.hostname` again, now cached), os_version, serial_number, interfaces,
vlans, uptime_string (via a second `self.uptime` access, again a fresh SOAP
call) — and cache it; otherwise return the cache with no device round trip. -/
def facts (env : Env) (st : State) : List (Str × FVal) × State :=
  match st.facts with
  | some f => (f, st)
  | none =>
    let r1 := uptime env st
    let r2 := model env r1.2
    let r3 := hostname env r2.2
    let r4 := hostname env r3.2
    let r5 := version env r4.2
    let r6 := serial_number env r5.2
    let r7 := interfaces env r6.2
    let r8 := vlans env r7.2
    let r9 := uptime env r8.2
    let f := [("uptime".data, FVal.n r1.1),
              ("vendor".data, FVal.s "F5 Networks".data),
              ("model".data, FVal.s r2.1),
              ("hostname".data, FVal.s r3.1),
              ("fqdn".data, FVal.s r4.1),
              ("os_version".data, FVal.s r5.1),
              ("serial_number".data, FVal.s r6.1),
              ("interfaces".data, FVal.l r7.1),
              ("vlans".data, FVal.l r8.1),
              ("uptime_string".data, FVal.s (uptime_to_string r9.1))]
    (f, { r9.2 with facts := some f })

/-- Embeds `F5Device.config`: `raise NotImplementedError` — no state is
touched and no transport call is made. -/
def config (st : State) : Except Unit Unit × State := (.error (), st)

/-- Embeds `F5Device.refresh_images`: clear the images cache and recompute it
through the `images` property. -/
def refresh_images (env : Env) (st : State) : List Str × State :=
  images env { st with images := none }

/-- Embeds `F5Device.refresh_volumes`. -/
def refresh_volumes (env : Env) (st : State) : List Volume × State :=
  volumes env { st with volumes := none }

/-- Embeds `F5Device.refresh_vlans`. -/
def refresh_vlans (env : Env) (st : State) : List Str × State :=
  vlans env { st with vlans := none }

/-- Embeds `F5Device.refresh_interfaces`. -/
def refresh_interfaces (env : Env) (st : State) : List Str × State :=
  interfaces env { st with interfaces := none }

/-- Embeds `F5Device.refresh_version`. -/
def refresh_version (env : Env) (st : State) : Str × State :=
  version env { st with version := none }

/-- Embeds `F5Device.refresh_free_space`. -/
def refresh_free_space (env : Env) (st : State) : Nat × State :=
  free_space env { st with free_space := none }

/-- Embeds `F5Device.refresh_active_volume`. -/
def refresh_active_volume (env : Env) (st : State) : Option Str × State :=
  active_volume env { st with active_volume := none }

/-- Embeds `F5Device.get_boot_options`: the mapping
`{'active_volume': self.active_volume}` — there is no `'sys'` key. -/
def get_boot_options (env : Env) (st : State) : List (Str × Option Str) × State :=
  let r := active_volume env st
  ([("active_volume".data, r.1)], r.2)

/-- Embeds `F5Device._check_md5sum`: run `md5sum` on the remote path
(`remote_md5`, `None` when the command yields no output) and compare it with
`checksum`; both sides may be `None`, and Python's `==` then compares the
`None`s. -/
def check_md5sum (remote_md5 : Str → Option Str) (filename : Str)
    (checksum : Option Str) : Bool :=
  if checksum = remote_md5 filename then true else false

/-- Embeds `F5Device._image_match`: the image name must occur in the images
collection and the checksum of `/shared/images/<name>` must match. -/
def image_match (images : List Str) (remote_md5 : Str → Option Str)
    (image_name : Str) (checksum : Option Str) : Bool :=
  if image_name ∈ images then
    check_md5sum remote_md5 ("/shared/images/".data ++ image_name) checksum
  else false

/-- Embeds `F5Device.file_copy_remote_exists`: reject a destination outside
`/shared/images` (`NotImplementedError`), then report whether the local
file's MD5 matches the image of the same basename on the device. -/
def file_copy_remote_exists (local_files : Str → Option Bytes)
    (md5 : Bytes → Str) (images : List Str) (remote_md5 : Str → Option Str)
    (src : Str) (dest : Option Str) : Except Str Bool :=
  match dest with
  | some d =>
    if ("/shared/images".data.isPrefixOf d) = false then
      .error "Support only for images - destination is always /shared/images".data
    else
      .ok (image_match images remote_md5 (basename src)
        (Junos.file_copy_local_md5 local_files md5 src))
  | none =>
    .ok (image_match images remote_md5 (basename src)
      (Junos.file_copy_local_md5 local_files md5 src))

end F5

/-- Transport used by concrete witnesses: the command `"b"` is answered with a
response containing the `"Error:"` marker (also matched by the ASA markers);
all other commands are answered benignly. -/
def witnessMethod : Str → Str := fun c =>
  if c = ['b'] then "Error: bad command".data else "ok".data

/-- Concrete Junos native facts used by witnesses. -/
def junosNativeFactsEx : Junos.NativeFacts :=
  ⟨"fw1".data, "mx960".data, "sn001".data, "fw1.example.com".data,
   "4 days, 12 hours, 17 minutes".data,
   [("hostname".data, "fw1".data), ("version".data, "15.1R1.9".data)]⟩

/-- Concrete Junos environment used by witnesses. -/
def junosEnvEx : Junos.Env := ⟨junosNativeFactsEx, ["ge-0/0/0".data]⟩

/-- Concrete F5 environment used by witnesses. -/
def f5EnvEx : F5.Env :=
  ⟨"ntc.local".data, "BIG-IP 4000".data, "chs0001".data, 100000, "11.6.0".data,
   ["1.1".data], ["vlan1".data], ["img.bin".data],
   [⟨"HD1.1".data, true, "11.6.0".data, "0.0.401".data, "complete".data⟩], 20⟩

/-- Concrete toy checksum function used by witnesses. -/
def md5Ex : Bytes → Str := fun b => if b = [0] then "hash0".data else "hash1".data

/-- Concrete local file system used by witnesses: `img.bin` holds byte 0. -/
def localFilesEx : Str → Option Bytes := fun p =>
  if p = "img.bin".data then some [0] else none

/-- Local file system after the file's bytes were changed to byte 1. -/
def localFilesEx2 : Str → Option Bytes := fun p =>
  if p = "img.bin".data then some [1] else none

/-- Concrete Junos remote checksums used by witnesses: the remote `img.bin`
has the checksum of byte 0. -/
def remoteChecksumEx : Str → Option Str := fun p =>
  if p = "img.bin".data then some "hash0".data else none

/-- Concrete F5 remote md5sum results used by witnesses. -/
def remoteMd5Ex : Str → Option Str := fun p =>
  if p = "/shared/images/img.bin".data then some "hash0".data else none

/-- Concrete transport for `JunosDevice.show` witnesses. -/
def cliEx : Str → Str := fun _ => "output".data

/-!
## Theorems
-/

theorem takeWhile_digits_append (ds rest : Str) (hds : ∀ c ∈ ds, c.isDigit = true)
    (hrest : headNotDigit rest = true) :
    List.takeWhile Char.isDigit (ds ++ rest) = ds
    ∧ List.dropWhile Char.isDigit (ds ++ rest) = rest := by
  induction ds with
  | nil =>
    cases rest with
    | nil => simp
    | cons r rs =>
      simp only [headNotDigit, Bool.not_eq_true'] at hrest
      simp [List.takeWhile_cons, List.dropWhile_cons, hrest]
  | cons c cs ih =>
    have hc : c.isDigit = true := hds c (by simp)
    have := ih (fun x hx => hds x (by simp [hx]))
    simp [List.takeWhile_cons, List.dropWhile_cons, hc, this.1, this.2]

theorem searchNumUnit_append_nondigits (unit a l : Str)
    (ha : ∀ c ∈ a, c.isDigit = false) :
    searchNumUnit unit (a ++ l) = searchNumUnit unit l := by
  induction a with
  | nil => rfl
  | cons c cs ih =>
    have hc : c.isDigit = false := ha c (by simp)
    simp only [List.cons_append, searchNumUnit, hc]
    simp only [Bool.false_eq_true, if_false]
    exact ih (fun x hx => ha x (by simp [hx]))

theorem searchNumUnit_hit (unit ds rest : Str) (hne : ds ≠ [])
    (hds : ∀ c ∈ ds, c.isDigit = true) (hrest : headNotDigit rest = true)
    (hpre : unit.isPrefixOf rest = true) :
    searchNumUnit unit (ds ++ rest) = some (digitsToNat ds) := by
  cases ds with
  | nil => exact absurd rfl hne
  | cons c cs =>
    have hc : c.isDigit = true := hds c (by simp)
    have htd := takeWhile_digits_append cs rest (fun x hx => hds x (by simp [hx])) hrest
    simp only [List.cons_append, searchNumUnit, hc, if_true, List.append_eq, htd.1,
      htd.2, hpre]

theorem searchNumUnit_miss (unit ds rest : Str)
    (hds : ∀ c ∈ ds, c.isDigit = true) (hrest : headNotDigit rest = true)
    (hnp : unit.isPrefixOf rest = false) :
    searchNumUnit unit (ds ++ rest) = searchNumUnit unit rest := by
  induction ds with
  | nil => rfl
  | cons c cs ih =>
    have hc : c.isDigit = true := hds c (by simp)
    have htd := takeWhile_digits_append cs rest (fun x hx => hds x (by simp [hx])) hrest
    simp only [List.cons_append, searchNumUnit, hc, if_true, List.append_eq, htd.2, hnp,
      Bool.false_eq_true, if_false]
    exact ih (fun x hx => hds x (by simp [hx]))

theorem search_day_mkUptime (d h m : Option Str)
    (hd : goodDigits d) (hh : goodDigits h) (hm : goodDigits m) :
    searchNumUnit " day".data (mkUptime d h m) = Option.map digitsToNat d := by
  rcases d with _ | ds <;> rcases h with _ | hs <;> rcases m with _ | ms <;>
    simp only [mkUptime, Option.map_none', Option.map_some']
  · rfl
  · rw [searchNumUnit_miss _ _ _ (hm ms rfl).2 (by rfl) (by simp [List.isPrefixOf])]
    decide
  · rw [searchNumUnit_miss _ _ _ (hh hs rfl).2 (by rfl) (by simp [List.isPrefixOf])]
    decide
  · rw [searchNumUnit_miss _ _ _ (hh hs rfl).2 (by rfl) (by simp [List.isPrefixOf]),
      searchNumUnit_append_nondigits _ _ _ (by decide),
      searchNumUnit_miss _ _ _ (hm ms rfl).2 (by rfl) (by simp [List.isPrefixOf])]
    decide
  · rw [searchNumUnit_hit _ _ _ (hd ds rfl).1 (hd ds rfl).2 (by rfl) (by decide)]
  · rw [searchNumUnit_hit _ _ _ (hd ds rfl).1 (hd ds rfl).2 (by rfl)
      (by simp [List.isPrefixOf])]
  · rw [searchNumUnit_hit _ _ _ (hd ds rfl).1 (hd ds rfl).2 (by rfl)
      (by simp [List.isPrefixOf])]
  · rw [searchNumUnit_hit _ _ _ (hd ds rfl).1 (hd ds rfl).2 (by rfl)
      (by simp [List.isPrefixOf])]

theorem search_hour_mkUptime (d h m : Option Str)
    (hd : goodDigits d) (hh : goodDigits h) (hm : goodDigits m) :
    searchNumUnit " hour".data (mkUptime d h m) = Option.map digitsToNat h := by
  rcases d with _ | ds <;> rcases h with _ | hs <;> rcases m with _ | ms <;>
    simp only [mkUptime, Option.map_none', Option.map_some']
  · rfl
  · rw [searchNumUnit_miss _ _ _ (hm ms rfl).2 (by rfl) (by simp [List.isPrefixOf])]
    decide
  · rw [searchNumUnit_hit _ _ _ (hh hs rfl).1 (hh hs rfl).2 (by rfl) (by decide)]
  · rw [searchNumUnit_hit _ _ _ (hh hs rfl).1 (hh hs rfl).2 (by rfl)
      (by simp [List.isPrefixOf])]
  · rw [searchNumUnit_miss _ _ _ (hd ds rfl).2 (by rfl) (by simp [List.isPrefixOf])]
    decide
  · rw [searchNumUnit_miss _ _ _ (hd ds rfl).2 (by rfl) (by simp [List.isPrefixOf]),
      searchNumUnit_append_nondigits _ _ _ (by decide),
      searchNumUnit_miss _ _ _ (hm ms rfl).2 (by rfl) (by simp [List.isPrefixOf])]
    decide
  · rw [searchNumUnit_miss _ _ _ (hd ds rfl).2 (by rfl) (by simp [List.isPrefixOf]),
      searchNumUnit_append_nondigits _ _ _ (by decide),
      searchNumUnit_hit _ _ _ (hh hs rfl).1 (hh hs rfl).2 (by rfl) (by decide)]
  · rw [searchNumUnit_miss _ _ _ (hd ds rfl).2 (by rfl) (by simp [List.isPrefixOf]),
      searchNumUnit_append_nondigits _ _ _ (by decide),
      searchNumUnit_hit _ _ _ (hh hs rfl).1 (hh hs rfl).2 (by rfl)
        (by simp [List.isPrefixOf])]

theorem search_minute_mkUptime (d h m : Option Str)
    (hd : goodDigits d) (hh : goodDigits h) (hm : goodDigits m) :
    searchNumUnit " minute".data (mkUptime d h m) = Option.map digitsToNat m := by
  rcases d with _ | ds <;> rcases h with _ | hs <;> rcases m with _ | ms <;>
    simp only [mkUptime, Option.map_none', Option.map_some']
  · rfl
  · rw [searchNumUnit_hit _ _ _ (hm ms rfl).1 (hm ms rfl).2 (by rfl) (by decide)]
  · rw [searchNumUnit_miss _ _ _ (hh hs rfl).2 (by rfl) (by simp [List.isPrefixOf])]
    decide
  · rw [searchNumUnit_miss _ _ _ (hh hs rfl).2 (by rfl) (by simp [List.isPrefixOf]),
      searchNumUnit_append_nondigits _ _ _ (by decide),
      searchNumUnit_hit _ _ _ (hm ms rfl).1 (hm ms rfl).2 (by rfl) (by decide)]
  · rw [searchNumUnit_miss _ _ _ (hd ds rfl).2 (by rfl) (by simp [List.isPrefixOf])]
    decide
  · rw [searchNumUnit_miss _ _ _ (hd ds rfl).2 (by rfl) (by simp [List.isPrefixOf]),
      searchNumUnit_append_nondigits _ _ _ (by decide),
      searchNumUnit_hit _ _ _ (hm ms rfl).1 (hm ms rfl).2 (by rfl) (by decide)]
  · rw [searchNumUnit_miss _ _ _ (hd ds rfl).2 (by rfl) (by simp [List.isPrefixOf]),
      searchNumUnit_append_nondigits _ _ _ (by decide),
      searchNumUnit_miss _ _ _ (hh hs rfl).2 (by rfl) (by simp [List.isPrefixOf])]
    decide
  · rw [searchNumUnit_miss _ _ _ (hd ds rfl).2 (by rfl) (by simp [List.isPrefixOf]),
      searchNumUnit_append_nondigits _ _ _ (by decide),
      searchNumUnit_miss _ _ _ (hh hs rfl).2 (by rfl) (by simp [List.isPrefixOf]),
      searchNumUnit_append_nondigits _ _ _ (by decide),
      searchNumUnit_hit _ _ _ (hm ms rfl).1 (hm ms rfl).2 (by rfl) (by decide)]

theorem search_second_mkUptime (d h m : Option Str)
    (hd : goodDigits d) (hh : goodDigits h) (hm : goodDigits m) :
    searchNumUnit " second".data (mkUptime d h m) = none := by
  rcases d with _ | ds <;> rcases h with _ | hs <;> rcases m with _ | ms <;>
    simp only [mkUptime]
  · rfl
  · rw [searchNumUnit_miss _ _ _ (hm ms rfl).2 (by rfl) (by simp [List.isPrefixOf])]
    decide
  · rw [searchNumUnit_miss _ _ _ (hh hs rfl).2 (by rfl) (by simp [List.isPrefixOf])]
    decide
  · rw [searchNumUnit_miss _ _ _ (hh hs rfl).2 (by rfl) (by simp [List.isPrefixOf]),
      searchNumUnit_append_nondigits _ _ _ (by decide),
      searchNumUnit_miss _ _ _ (hm ms rfl).2 (by rfl) (by simp [List.isPrefixOf])]
    decide
  · rw [searchNumUnit_miss _ _ _ (hd ds rfl).2 (by rfl) (by simp [List.isPrefixOf])]
    decide
  · rw [searchNumUnit_miss _ _ _ (hd ds rfl).2 (by rfl) (by simp [List.isPrefixOf]),
      searchNumUnit_append_nondigits _ _ _ (by decide),
      searchNumUnit_miss _ _ _ (hm ms rfl).2 (by rfl) (by simp [List.isPrefixOf])]
    decide
  · rw [searchNumUnit_miss _ _ _ (hd ds rfl).2 (by rfl) (by simp [List.isPrefixOf]),
      searchNumUnit_append_nondigits _ _ _ (by decide),
      searchNumUnit_miss _ _ _ (hh hs rfl).2 (by rfl) (by simp [List.isPrefixOf])]
    decide
  · rw [searchNumUnit_miss _ _ _ (hd ds rfl).2 (by rfl) (by simp [List.isPrefixOf]),
      searchNumUnit_append_nondigits _ _ _ (by decide),
      searchNumUnit_miss _ _ _ (hh hs rfl).2 (by rfl) (by simp [List.isPrefixOf]),
      searchNumUnit_append_nondigits _ _ _ (by decide),
      searchNumUnit_miss _ _ _ (hm ms rfl).2 (by rfl) (by simp [List.isPrefixOf])]
    decide

theorem goodDigits_some (x : Str) (h1 : x ≠ []) (h2 : ∀ c ∈ x, c.isDigit = true) :
    goodDigits (some x) := by
  intro y hy
  cases hy
  exact ⟨h1, h2⟩

/-- Claim C5: for every raw uptime string of the form
`"D days, H hours, M minutes"` (any component optionally absent, counting as
0), the ASA and Junos uptime-to-seconds normalizations both return
`D*86400 + H*3600 + M*60`, and the ASA and Junos uptime-to-string
normalizations both return the `DD:HH:MM:SS` zero-padded string with the
seconds field `00`. -/
theorem claimC5_uptime_normalization (d h m : Option Str)
    (hd : goodDigits d) (hh : goodDigits h) (hm : goodDigits m) :
    ASA.uptime_to_seconds (mkUptime d h m)
        = (Option.map digitsToNat d).getD 0 * 86400
          + (Option.map digitsToNat h).getD 0 * 3600
          + (Option.map digitsToNat m).getD 0 * 60
    ∧ Junos.uptime_to_seconds (mkUptime d h m)
        = (Option.map digitsToNat d).getD 0 * 86400
          + (Option.map digitsToNat h).getD 0 * 3600
          + (Option.map digitsToNat m).getD 0 * 60
    ∧ ASA.uptime_to_string (mkUptime d h m)
        = pad2 ((Option.map digitsToNat d).getD 0)
            ++ ':' :: pad2 ((Option.map digitsToNat h).getD 0)
            ++ ':' :: pad2 ((Option.map digitsToNat m).getD 0)
            ++ ":00".data
    ∧ Junos.uptime_to_string (mkUptime d h m)
        = pad2 ((Option.map digitsToNat d).getD 0)
            ++ ':' :: pad2 ((Option.map digitsToNat h).getD 0)
            ++ ':' :: pad2 ((Option.map digitsToNat m).getD 0)
            ++ ":00".data := by
  have sd := search_day_mkUptime d h m hd hh hm
  have sh := search_hour_mkUptime d h m hd hh hm
  have sm := search_minute_mkUptime d h m hd hh hm
  have ss := search_second_mkUptime d h m hd hh hm
  refine ⟨?_, ?_, ?_, ?_⟩
  · simp only [ASA.uptime_to_seconds, ASA.uptime_components, sd, sh, sm]
    omega
  · simp only [Junos.uptime_to_seconds, Junos.uptime_components, sd, sh, sm, ss]
    simp only [Option.getD_none]
    omega
  · simp only [ASA.uptime_to_string, ASA.uptime_components, sd, sh, sm]
  · simp only [Junos.uptime_to_string, Junos.uptime_components, sd, sh, sm, ss]
    simp only [Option.getD_none]
    rfl

/-- Witness for claim C5 at the spec's example `"4 days, 12 hours, 17 minutes"`:
the normalized seconds value is `4*86400 + 12*3600 + 17*60 = 389820` and the
ASA normalized string is `"04:12:17:00"`. -/
theorem claimC5_witness :
    (ASA.uptime_to_seconds (mkUptime (some "4".data) (some "12".data) (some "17".data))
        = (Option.map digitsToNat (some "4".data)).getD 0 * 86400
          + (Option.map digitsToNat (some "12".data)).getD 0 * 3600
          + (Option.map digitsToNat (some "17".data)).getD 0 * 60
      ∧ Junos.uptime_to_seconds (mkUptime (some "4".data) (some "12".data) (some "17".data))
        = (Option.map digitsToNat (some "4".data)).getD 0 * 86400
          + (Option.map digitsToNat (some "12".data)).getD 0 * 3600
          + (Option.map digitsToNat (some "17".data)).getD 0 * 60
      ∧ ASA.uptime_to_string (mkUptime (some "4".data) (some "12".data) (some "17".data))
        = pad2 ((Option.map digitsToNat (some "4".data)).getD 0)
            ++ ':' :: pad2 ((Option.map digitsToNat (some "12".data)).getD 0)
            ++ ':' :: pad2 ((Option.map digitsToNat (some "17".data)).getD 0)
            ++ ":00".data
      ∧ Junos.uptime_to_string (mkUptime (some "4".data) (some "12".data) (some "17".data))
        = pad2 ((Option.map digitsToNat (some "4".data)).getD 0)
            ++ ':' :: pad2 ((Option.map digitsToNat (some "12".data)).getD 0)
            ++ ':' :: pad2 ((Option.map digitsToNat (some "17".data)).getD 0)
            ++ ":00".data)
    ∧ mkUptime (some "4".data) (some "12".data) (some "17".data)
        = "4 days, 12 hours, 17 minutes".data
    ∧ ASA.uptime_to_seconds "4 days, 12 hours, 17 minutes".data = 389820
    ∧ ASA.uptime_to_string "4 days, 12 hours, 17 minutes".data = "04:12:17:00".data :=
  ⟨claimC5_uptime_normalization (some "4".data) (some "12".data) (some "17".data)
      (goodDigits_some _ (by decide) (by decide)) (goodDigits_some _ (by decide) (by decide))
      (goodDigits_some _ (by decide) (by decide)),
   by decide, by decide, by decide⟩

namespace Netmiko

theorem send_commands_go_first_error (has_error : Str → Bool)
    (netmiko_method : Str → Str) (entered responses : List Str)
    (pre : List Str) (bad : Str) (post : List Str)
    (hpre : ∀ c ∈ pre, has_error (netmiko_method c) = false)
    (hbad : has_error (netmiko_method bad) = true) :
    send_commands_go has_error netmiko_method entered responses (pre ++ bad :: post)
      = (.error ⟨bad, netmiko_method bad, entered ++ pre ++ [bad]⟩,
         entered ++ pre ++ [bad]) := by
  induction pre generalizing entered responses with
  | nil =>
    simp only [List.nil_append, send_commands_go, hbad, if_pos]
    simp
  | cons c cs ih =>
    have hc : has_error (netmiko_method c) = false := hpre c (by simp)
    simp only [List.cons_append, send_commands_go, hc]
    rw [if_neg (by simp)]
    simp only [List.append_eq]
    rw [ih _ _ (fun x hx => hpre x (by simp [hx]))]
    simp

theorem send_commands_go_all_ok (has_error : Str → Bool)
    (netmiko_method : Str → Str) (entered responses : List Str)
    (commands : List Str)
    (hok : ∀ c ∈ commands, has_error (netmiko_method c) = false) :
    send_commands_go has_error netmiko_method entered responses commands
      = (.ok (responses ++ commands.map netmiko_method), entered ++ commands) := by
  induction commands generalizing entered responses with
  | nil => simp [send_commands_go]
  | cons c cs ih =>
    have hc : has_error (netmiko_method c) = false := hok c (by simp)
    simp only [send_commands_go, hc]
    rw [if_neg (by simp)]
    rw [ih _ _ (fun x hx => hok x (by simp [hx]))]
    simp

end Netmiko

namespace ASA

theorem show_list_go_first_error (respond : Str → Str)
    (responses entered : List Str) (pre : List Str) (bad : Str) (post : List Str)
    (hpre : ∀ c ∈ pre, response_has_error (respond c) = false)
    (hbad : response_has_error (respond bad) = true) :
    show_list_go respond responses entered (pre ++ bad :: post)
      = (.error ⟨entered ++ pre ++ [bad], bad, respond bad⟩,
         entered ++ pre ++ [bad]) := by
  induction pre generalizing responses entered with
  | nil =>
    simp only [List.nil_append, show_list_go, send_command, hbad, if_pos]
    simp
  | cons c cs ih =>
    have hc : response_has_error (respond c) = false := hpre c (by simp)
    simp only [List.cons_append, show_list_go, send_command, hc]
    rw [if_neg (by simp)]
    simp only [List.append_eq]
    rw [ih _ _ (fun x hx => hpre x (by simp [hx]))]
    simp

theorem config_list_go_first_error (respond : Str → Str)
    (entered : List Str) (s : Session) (pre : List Str) (bad : Str) (post : List Str)
    (hpre : ∀ c ∈ pre, response_has_error (respond c) = false)
    (hbad : response_has_error (respond bad) = true) :
    config_list_go respond entered s (pre ++ bad :: post)
      = (.error ⟨entered ++ pre ++ [bad], bad, respond bad⟩, s) := by
  induction pre generalizing entered with
  | nil =>
    simp only [List.nil_append, config_list_go, send_command, hbad, if_pos]
    simp
  | cons c cs ih =>
    have hc : response_has_error (respond c) = false := hpre c (by simp)
    simp only [List.cons_append, config_list_go, send_command, hc]
    rw [if_neg (by simp)]
    simp only [List.append_eq]
    rw [ih _ (fun x hx => hpre x (by simp [hx]))]
    simp

theorem config_list_go_all_ok (respond : Str → Str)
    (entered : List Str) (s : Session) (commands : List Str)
    (hok : ∀ c ∈ commands, response_has_error (respond c) = false) :
    config_list_go respond entered s commands
      = (.ok (), { s with mode := Mode.privileged }) := by
  induction commands generalizing entered with
  | nil => simp [config_list_go]
  | cons c cs ih =>
    have hc : response_has_error (respond c) = false := hok c (by simp)
    simp only [config_list_go, send_command, hc]
    rw [if_neg (by simp)]
    exact ih _ (fun x hx => hok x (by simp [hx]))

end ASA

/-- Claim C1: in a batch of N commands where command k is the first whose
response carries a vendor error marker, the raised error's attempted-commands
prefix has exactly k entries — commands 1..k in order, ending with the failing
command — and the transport send log stops at position k, both for
`NetmikoBaseDevice._send_commands` and for `ASADevice.show_list`. -/
theorem claimC1_batch_stops_at_first_error (method : Str → Str)
    (pre : List Str) (bad : Str) (post : List Str)
    (hpreN : ∀ c ∈ pre, Netmiko.command_output_has_error (method c) = false)
    (hbadN : Netmiko.command_output_has_error (method bad) = true)
    (hpreA : ∀ c ∈ pre, ASA.response_has_error (method c) = false)
    (hbadA : ASA.response_has_error (method bad) = true) :
    Netmiko.send_commands Netmiko.command_output_has_error method (pre ++ bad :: post)
      = (.error ⟨bad, method bad, pre ++ [bad]⟩, pre ++ [bad])
    ∧ ASA.show_list method (pre ++ bad :: post)
      = (.error ⟨pre ++ [bad], bad, method bad⟩, pre ++ [bad])
    ∧ (pre ++ [bad]).length = pre.length + 1 := by
  refine ⟨?_, ?_, by simp⟩
  · have h := Netmiko.send_commands_go_first_error
      Netmiko.command_output_has_error method [] [] pre bad post hpreN hbadN
    simpa [Netmiko.send_commands] using h
  · have h := ASA.show_list_go_first_error method [] [] pre bad post hpreA hbadA
    simpa [ASA.show_list] using h

/-- Witness for claim C1 at the concrete batch `["a", "b", "c"]` whose second
command fails: the attempted prefix is `["a", "b"]` (2 entries) and the
transport log is `["a", "b"]` — `"c"` is never sent. -/
theorem claimC1_witness :
    Netmiko.send_commands Netmiko.command_output_has_error witnessMethod
        ([['a']] ++ ['b'] :: [['c']])
      = (.error ⟨['b'], witnessMethod ['b'], [['a']] ++ [['b']]⟩, [['a']] ++ [['b']])
    ∧ ASA.show_list witnessMethod ([['a']] ++ ['b'] :: [['c']])
      = (.error ⟨[['a']] ++ [['b']], ['b'], witnessMethod ['b']⟩, [['a']] ++ [['b']])
    ∧ ([['a']] ++ [['b']]).length = [['a']].length + 1 :=
  claimC1_batch_stops_at_first_error witnessMethod [['a']] ['b'] [['c']]
    (by decide) (by decide) (by decide) (by decide)

/-- Claim C2 counterexample: on the ASA driver, `config_list(["a", "b"])` with
the second command failing raises `CommandListError` and leaves the session in
config mode — `exit_config_mode` is never reached, so the cleanup the claim
promises for every driver does not happen. -/
theorem claimC2_counterexample :
    (ASA.config_list witnessMethod [['a'], ['b']] ⟨Mode.privileged⟩).1
      = .error ⟨[['a'], ['b']], ['b'], witnessMethod ['b']⟩
    ∧ (ASA.config_list witnessMethod [['a'], ['b']] ⟨Mode.privileged⟩).2.mode
      = Mode.config := by
  constructor <;> rfl

/-- Claim C2 amended: the netmiko-based drivers' `config` exits config mode in
a guaranteed `finally` cleanup — after success or failure — unless the caller
explicitly passed `exit_config_mode=False`; the ASA driver's `config` /
`config_list`, by contrast, exit config mode only when every command succeeds,
and a failing command leaves the session in config mode. -/
theorem claimC2_amended_config_mode_cleanup
    (enterOpt exitOpt : Option Bool) (has_error : Str → Bool)
    (send_config_set respond : Str → Str) (commands : List Str) (s sA sB : Session)
    (hexit : exitOpt ≠ some false)
    (okCommands : List Str)
    (hok : ∀ c ∈ okCommands, ASA.response_has_error (respond c) = false)
    (pre : List Str) (bad : Str) (post : List Str)
    (hpre : ∀ c ∈ pre, ASA.response_has_error (respond c) = false)
    (hbad : ASA.response_has_error (respond bad) = true) :
    (Netmiko.config enterOpt exitOpt has_error send_config_set commands s).2.1.mode
      = Mode.privileged
    ∧ (ASA.config_list respond okCommands sA).2.mode = Mode.privileged
    ∧ (ASA.config_list respond (pre ++ bad :: post) sB).2.mode = Mode.config := by
  refine ⟨?_, ?_, ?_⟩
  · simp [Netmiko.config, hexit]
  · rw [ASA.config_list, ASA.config_list_go_all_ok respond [] _ okCommands hok]
  · rw [ASA.config_list, ASA.config_list_go_first_error respond [] _ pre bad post hpre hbad]

/-- Witness for the amended claim C2 at concrete inputs: a netmiko `config`
batch whose second command fails still ends with the session in privileged
mode, an all-successful ASA `config_list` ends in privileged mode, and an ASA
`config_list` whose second command fails ends still in config mode. -/
theorem claimC2_amended_witness :
    (Netmiko.config none none Netmiko.command_output_has_error witnessMethod
        [['a'], ['b']] ⟨Mode.privileged⟩).2.1.mode = Mode.privileged
    ∧ (ASA.config_list witnessMethod [['a']] ⟨Mode.privileged⟩).2.mode = Mode.privileged
    ∧ (ASA.config_list witnessMethod ([['a']] ++ ['b'] :: []) ⟨Mode.privileged⟩).2.mode
      = Mode.config :=
  claimC2_amended_config_mode_cleanup none none Netmiko.command_output_has_error
    witnessMethod witnessMethod [['a'], ['b']] ⟨Mode.privileged⟩ ⟨Mode.privileged⟩
    ⟨Mode.privileged⟩ (by decide) [['a']] (by decide) [['a']] ['b'] [] (by decide)
    (by decide)

/-- Claim C4 counterexample: `ASADevice.reboot(timer=0)` with a benign
transport never raises `RebootTimeout`/`OperationTimeout` — when the
10-second alarm does not fire it returns `None` (success), and when the alarm
fires the zero-argument handler makes Python raise `TypeError`, which escapes
the `except RebootSignal` clause: neither outcome is the timeout error the
claim requires. -/
theorem claimC4_counterexample :
    ASA.reboot 0 (fun _ => "ok".data) false = .ok ()
    ∧ ASA.reboot 0 (fun _ => "ok".data) true
        = .error (.typeError ASA.alarm_typeerror_message) := by
  constructor <;> rfl

/-- Claim C4 amended: `ASADevice.reboot` never raises a timeout error for any
timer.  With `timer=0` it sends plain `'reload'` immediately under a
10-second alarm: when the alarm does not fire and the reload response carries
no vendor error marker the call returns `None` (success), and when the alarm
fires the zero-argument SIGALRM handler makes Python raise `TypeError` —
which the `except RebootSignal` clause does not catch — rather than
`RebootTimeout`/`OperationTimeout`. -/
theorem claimC4_amended_reboot_no_timeout (timer : Nat) (respond : Str → Str)
    (h : ASA.response_has_error
      (respond (if timer > 0 then "reload in ".data ++ (Nat.repr timer).data
                else "reload".data)) = false) :
    ASA.reboot timer respond false = .ok ()
    ∧ ASA.reboot timer respond true
        = .error (.typeError ASA.alarm_typeerror_message) := by
  refine ⟨?_, rfl⟩
  simp only [ASA.reboot, ASA.send_command, Bool.false_eq_true, if_false]
  rw [h]
  simp

/-- Witness for the amended claim C4: a delayed reboot (`timer = 5`) with a
benign transport returns success when uninterrupted, and surfaces the
handler's `TypeError` when the alarm fires. -/
theorem claimC4_amended_witness :
    ASA.reboot 5 (fun _ => "Proceed with reload?".data) false = .ok ()
    ∧ ASA.reboot 5 (fun _ => "Proceed with reload?".data) true
        = .error (.typeError ASA.alarm_typeerror_message) :=
  claimC4_amended_reboot_no_timeout 5 (fun _ => "Proceed with reload?".data)
    (by decide)

/-- Claim C10: `JunosDevice.show` validates before any device I/O — with
`raw_text=False` it raises `ValueError` with zero transport calls; with a
command not starting with `'show'` it raises `CommandError` with zero
transport calls; only a `'show'`-prefixed command with `raw_text=True`
reaches the transport, with exactly one call. -/
theorem claimC10_junos_show_validation (cli : Str → Str) (command : Str) :
    Junos.show_op cli command false
      = (.error (.valueError Junos.raw_text_message), 0)
    ∧ (("show".data.isPrefixOf command) = false →
        Junos.show_op cli command true
          = (.error (.commandError command Junos.show_command_message), 0))
    ∧ (("show".data.isPrefixOf command) = true →
        Junos.show_op cli command true = (.ok (cli command), 1)) := by
  refine ⟨rfl, ?_, ?_⟩ <;> intro h <;> simp [Junos.show_op, h]

/-- Witness for claim C10: `"configure"` is rejected by both validations with
zero transport calls; `"show version"` reaches the transport once. -/
theorem claimC10_witness :
    Junos.show_op cliEx "configure".data false
      = (.error (.valueError Junos.raw_text_message), 0)
    ∧ Junos.show_op cliEx "configure".data true
      = (.error (.commandError "configure".data Junos.show_command_message), 0)
    ∧ Junos.show_op cliEx "show version".data true
      = (.ok (cliEx "show version".data), 1) :=
  ⟨(claimC10_junos_show_validation cliEx "configure".data).1,
   (claimC10_junos_show_validation cliEx "configure".data).2.1 (by decide),
   (claimC10_junos_show_validation cliEx "show version".data).2.2 (by decide)⟩

/-- Claim C3: on the Junos and F5 drivers, `facts` is computed on first access
(with device round trips) and cached; a second access returns the identical
snapshot with the state — including the transport call count — unchanged; and
the cache is never invalidated automatically: a config operation leaves the
facts cache exactly as it was. -/
theorem claimC3_facts_cached_until_refresh
    (jenv : Junos.Env) (jst : Junos.State) (fenv : F5.Env) (fst : F5.State)
    (command : Str) (load_error : Option Str)
    (hj : jst.facts = none) :
    (Junos.facts jenv jst).2.facts = some (Junos.facts jenv jst).1
    ∧ (Junos.facts jenv jst).2.calls = jst.calls + 3
    ∧ Junos.facts jenv (Junos.facts jenv jst).2 = Junos.facts jenv jst
    ∧ F5.facts fenv (F5.facts fenv fst).2 = F5.facts fenv fst
    ∧ (F5.facts fenv (F5.facts fenv fst).2).2.calls = (F5.facts fenv fst).2.calls
    ∧ (Junos.config command load_error (Junos.facts jenv jst).2).2.facts
        = (Junos.facts jenv jst).2.facts
    ∧ (F5.config (F5.facts fenv fst).2).2 = (F5.facts fenv fst).2 := by
  have hstep : Junos.facts jenv jst
      = (Junos.facts_value jenv.native_facts jenv.interfaces,
         ⟨some (Junos.facts_value jenv.native_facts jenv.interfaces), jst.calls + 3⟩) := by
    simp [Junos.facts, hj]
  have hF : F5.facts fenv (F5.facts fenv fst).2 = F5.facts fenv fst := by
    cases hf : fst.facts with
    | some f => simp [F5.facts, hf]
    | none => simp [F5.facts, hf]
  refine ⟨by rw [hstep], by rw [hstep], by rw [hstep]; rfl, hF, by rw [hF],
    ?_, rfl⟩
  cases load_error <;> simp [Junos.config]

/-- Witness for claim C3 at a concrete environment starting from the
freshly-constructed state: the first access costs three round trips, and a
second access on either driver returns the identical result with the state
unchanged. -/
theorem claimC3_witness :
    (Junos.facts junosEnvEx Junos.init).2.calls = Junos.init.calls + 3
    ∧ Junos.facts junosEnvEx (Junos.facts junosEnvEx Junos.init).2
        = Junos.facts junosEnvEx Junos.init
    ∧ F5.facts f5EnvEx (F5.facts f5EnvEx F5.init).2 = F5.facts f5EnvEx F5.init :=
  have h := claimC3_facts_cached_until_refresh junosEnvEx Junos.init f5EnvEx F5.init
    "set system host-name fw1".data none rfl
  ⟨h.2.1, h.2.2.1, h.2.2.2.1⟩

/-- Claim C6: `file_copy_remote_exists` is a content-checksum comparison — on
Junos it returns true iff the local file exists and its MD5 equals the remote
checksum of the destination; on F5 (with the destination defaulted) it
returns true iff the image of the same basename is on the device with a
matching MD5; and changing the local bytes to a different checksum between
two calls flips a true result to false. -/
theorem claimC6_file_copy_remote_exists_checksum
    (lf0 lf lf2 : Str → Option Bytes) (md5 : Bytes → Str)
    (rck rmd5 : Str → Option Str) (imgs : List Str)
    (src : Str) (dest : Option Str) (c c2 : Bytes)
    (h1 : lf src = some c) (h2 : lf2 src = some c2)
    (hr : rck (dest.getD (basename src)) = some (md5 c))
    (hne : md5 c2 ≠ md5 c) :
    (Junos.file_copy_remote_exists lf0 md5 rck src dest = true
      ↔ ∃ content, lf0 src = some content
          ∧ rck (dest.getD (basename src)) = some (md5 content))
    ∧ (F5.file_copy_remote_exists lf md5 imgs rmd5 src none = .ok true
        ↔ (basename src ∈ imgs
            ∧ rmd5 ("/shared/images/".data ++ basename src) = some (md5 c)))
    ∧ Junos.file_copy_remote_exists lf md5 rck src dest = true
    ∧ Junos.file_copy_remote_exists lf2 md5 rck src dest = false := by
  refine ⟨?_, ?_, ?_, ?_⟩
  · cases hl : lf0 src with
    | none => simp [Junos.file_copy_remote_exists, Junos.file_copy_local_md5, hl]
    | some content =>
      simp [Junos.file_copy_remote_exists, Junos.file_copy_local_md5, hl]
  · by_cases hb : basename src ∈ imgs
    · simp [F5.file_copy_remote_exists, F5.image_match, F5.check_md5sum,
        Junos.file_copy_local_md5, h1, hb, eq_comm]
    · simp [F5.file_copy_remote_exists, F5.image_match, F5.check_md5sum,
        Junos.file_copy_local_md5, h1, hb]
  · simp [Junos.file_copy_remote_exists, Junos.file_copy_local_md5, h1, hr]
  · have hnot : rck (dest.getD (basename src)) ≠ some (md5 c2) := by
      rw [hr]
      intro hsome
      exact hne (Option.some.inj hsome).symm
    simp [Junos.file_copy_remote_exists, Junos.file_copy_local_md5, h2, hnot]

/-- Witness for claim C6 at a concrete toy file system: `img.bin` with byte 0
matches the remote checksum and the call returns true; after the local bytes
change to byte 1 the call returns false. -/
theorem claimC6_witness :
    (Junos.file_copy_remote_exists localFilesEx md5Ex remoteChecksumEx
        "img.bin".data none = true
      ↔ ∃ content, localFilesEx "img.bin".data = some content
          ∧ remoteChecksumEx ((none : Option Str).getD (basename "img.bin".data))
              = some (md5Ex content))
    ∧ (F5.file_copy_remote_exists localFilesEx md5Ex f5EnvEx.images remoteMd5Ex
          "img.bin".data none = .ok true
        ↔ (basename "img.bin".data ∈ f5EnvEx.images
            ∧ remoteMd5Ex ("/shared/images/".data ++ basename "img.bin".data)
                = some (md5Ex [0])))
    ∧ Junos.file_copy_remote_exists localFilesEx md5Ex remoteChecksumEx
        "img.bin".data none = true
    ∧ Junos.file_copy_remote_exists localFilesEx2 md5Ex remoteChecksumEx
        "img.bin".data none = false :=
  claimC6_file_copy_remote_exists_checksum localFilesEx localFilesEx localFilesEx2
    md5Ex remoteChecksumEx remoteMd5Ex f5EnvEx.images "img.bin".data none [0] [1]
    (by decide) (by decide) (by decide) (by decide)

/-- Claim C7 counterexample: the ASA driver's `facts` is the empty mapping —
it does not even contain the `vendor` key, let alone the full schema the
claim requires of every driver. -/
theorem claimC7_counterexample :
    ASA.facts = [] ∧ "vendor".data ∉ ASA.facts.map Prod.fst := by
  refine ⟨rfl, ?_⟩
  simp [ASA.facts]

/-- Claim C7 amended: the F5 driver's `facts` contains exactly the ten schema
keys (vendor, model, os_version, hostname, fqdn, serial_number, interfaces,
vlans, uptime, uptime_string); the Junos driver's facts contains all of them
except `vlans` — with `os_version` present only when the native facts expose
a version key; and the ASA driver's facts is an unimplemented stub returning
the empty mapping. -/
theorem claimC7_amended_facts_schema (fenv : F5.Env) (jenv : Junos.Env) :
    (F5.facts fenv F5.init).1.map Prod.fst
      = ["uptime".data, "vendor".data, "model".data, "hostname".data, "fqdn".data,
         "os_version".data, "serial_number".data, "interfaces".data, "vlans".data,
         "uptime_string".data]
    ∧ (Junos.facts jenv Junos.init).1.map Prod.fst
      = ["hostname".data, "model".data, "serial_number".data, "interfaces".data,
         "fqdn".data, "uptime".data, "uptime_string".data]
        ++ (if (Junos.find_version_value jenv.native_facts.entries).isSome
            then ["os_version".data] else [])
        ++ ["vendor".data]
    ∧ "vlans".data ∉ (Junos.facts jenv Junos.init).1.map Prod.fst
    ∧ ASA.facts = [] := by
  have hkeys : (Junos.facts jenv Junos.init).1.map Prod.fst
      = ["hostname".data, "model".data, "serial_number".data, "interfaces".data,
         "fqdn".data, "uptime".data, "uptime_string".data]
        ++ (if (Junos.find_version_value jenv.native_facts.entries).isSome
            then ["os_version".data] else [])
        ++ ["vendor".data] := by
    cases hv : Junos.find_version_value jenv.native_facts.entries with
    | none => simp [Junos.facts, Junos.init, Junos.facts_value, hv]
    | some v => simp [Junos.facts, Junos.init, Junos.facts_value, hv]
  refine ⟨rfl, hkeys, ?_, rfl⟩
  rw [hkeys]
  cases hv : (Junos.find_version_value jenv.native_facts.entries).isSome with
  | false =>
    simp only [Bool.false_eq_true, if_false]
    decide
  | true =>
    simp only [if_true]
    decide

/-- Claim C8 counterexample: at a concrete device the F5 driver's
`get_boot_options` is `{'active_volume': ...}` with no `'sys'` key, and the
Junos driver's returns the bare `os_version` value, not a mapping with a
`'sys'` key. -/
theorem claimC8_counterexample :
    "sys".data ∉ (F5.get_boot_options f5EnvEx F5.init).1.map Prod.fst
    ∧ (Junos.get_boot_options junosEnvEx Junos.init).1
        = some (FVal.s "15.1R1.9".data) := by
  constructor
  · decide
  · decide

/-- Claim C8 amended: only the ASA driver's `get_boot_options` returns a
mapping with a `'sys'` key; the F5 driver returns a mapping whose only key is
`'active_volume'`, and the Junos driver returns the `os_version` fact value
itself rather than a mapping. -/
theorem claimC8_amended_boot_options_schema (boot_image : Option Str)
    (fenv : F5.Env) (fst : F5.State) (jenv : Junos.Env) (jst : Junos.State) :
    (ASA.get_boot_options boot_image).map Prod.fst = ["sys".data]
    ∧ "sys".data ∈ (ASA.get_boot_options boot_image).map Prod.fst
    ∧ (F5.get_boot_options fenv fst).1.map Prod.fst = ["active_volume".data]
    ∧ (Junos.get_boot_options jenv jst).1
        = lookupKey "os_version".data (Junos.facts jenv jst).1 := by
  exact ⟨rfl, by simp [ASA.get_boot_options], rfl, rfl⟩

/-- Claim C9: `F5Device.refresh_images` recomputes only the images cache —
every other cached field (volumes, version, vlans, interfaces, active_volume,
free_space, facts, hostname, model, serial_number) holds the same value it
held before the call — and `refresh_volumes` likewise recomputes only the
volumes cache. -/
theorem claimC9_refresh_frame (env : F5.Env) (st : F5.State) :
    ((F5.refresh_images env st).1 = env.images
      ∧ (F5.refresh_images env st).2.images = some env.images
      ∧ (F5.refresh_images env st).2.volumes = st.volumes
      ∧ (F5.refresh_images env st).2.version = st.version
      ∧ (F5.refresh_images env st).2.vlans = st.vlans
      ∧ (F5.refresh_images env st).2.interfaces = st.interfaces
      ∧ (F5.refresh_images env st).2.active_volume = st.active_volume
      ∧ (F5.refresh_images env st).2.free_space = st.free_space
      ∧ (F5.refresh_images env st).2.facts = st.facts
      ∧ (F5.refresh_images env st).2.hostname = st.hostname
      ∧ (F5.refresh_images env st).2.model = st.model
      ∧ (F5.refresh_images env st).2.serial_number = st.serial_number)
    ∧ ((F5.refresh_volumes env st).1 = env.volumes
      ∧ (F5.refresh_volumes env st).2.volumes = some env.volumes
      ∧ (F5.refresh_volumes env st).2.images = st.images
      ∧ (F5.refresh_volumes env st).2.version = st.version
      ∧ (F5.refresh_volumes env st).2.vlans = st.vlans
      ∧ (F5.refresh_volumes env st).2.interfaces = st.interfaces
      ∧ (F5.refresh_volumes env st).2.active_volume = st.active_volume
      ∧ (F5.refresh_volumes env st).2.free_space = st.free_space
      ∧ (F5.refresh_volumes env st).2.facts = st.facts
      ∧ (F5.refresh_volumes env st).2.hostname = st.hostname
      ∧ (F5.refresh_volumes env st).2.model = st.model
      ∧ (F5.refresh_volumes env st).2.serial_number = st.serial_number) :=
  ⟨⟨rfl, rfl, rfl, rfl, rfl, rfl, rfl, rfl, rfl, rfl, rfl, rfl⟩,
   ⟨rfl, rfl, rfl, rfl, rfl, rfl, rfl, rfl, rfl, rfl, rfl, rfl⟩⟩

end Pyntc
